import Mathlib

/-!
Shallow embedding of the command-construction and validation layer of the
pdf_to_text repository (src/cli.py, src/pdftk.py, src/magick.py,
src/tesseract.py, src/utils.py), together with proofs settling the
specification claims about it.

Conventions of the embedding:
* Python argument values handled by the layer are strings, sequences of
  strings, mappings from strings to strings, integers, booleans or None;
  they are modelled by `Option ArgVal` (with `none` standing for Python
  `None`).
* Command tokens are strings; token groups are `List String`.
* Raising an exception is modelled as `Except PyError`; the subprocess
  boundary is modelled by returning the token list that would be executed.
* The filesystem consulted by `os.path.isfile` is a parameter
  `fs : List String`, the list of paths of existing files.
-/

/-- Modelled from the spec: the error taxonomy of the missing `exceptions`
module.  `ValidationError` (spec: ValidationFailure) carries the offending
value inside its message; the plain `Exception` raised by
`PDFTK.format_encrypt` (spec: ConfigurationError) is a distinct
constructor, as is the defensive "no dispatch rule matched" failure of
`CLI.default_vars` (spec: ArgumentShapeError). -/
inductive PyError where
  | validationError (msg : String)
  | configError (msg : String)
  | shapeError (msg : String)
deriving DecidableEq, Repr

/-- The shapes of Python values the layer receives: a string, a non-string
sequence of strings, a mapping from strings to strings (as an ordered
association list, mirroring dict insertion order), an int, or a bool.
Python `None` is modelled as `Option.none` at use sites. -/
inductive ArgVal where
  | strA (s : String)
  | listA (xs : List String)
  | dictA (kvs : List (String × String))
  | intA (n : Int)
  | boolA (b : Bool)
deriving DecidableEq, Repr

/-- Python `str(x)` for the values of `ArgVal`, as used by the catch-all
`object` dispatch rule and by `Magick.get_settings`.  The list and dict
branches are never applied by any definition below (such values are caught
by the earlier `str`/`Iterable` rules), so their result is immaterial. -/
def pyStr : ArgVal → String
  | .strA s => s
  | .intA n => toString n
  | .boolA true => "True"
  | .boolA false => "False"
  | .listA _ => ""
  | .dictA _ => ""

/-- Python truthiness for the values of `ArgVal`. -/
def pyTruthy : ArgVal → Bool
  | .strA s => s ≠ ""
  | .listA xs => xs ≠ []
  | .dictA kvs => kvs ≠ []
  | .intA n => n ≠ 0
  | .boolA b => b

/-- Truthiness of an optional value: Python `None` is falsy. -/
def pyTruthyOpt : Option ArgVal → Bool
  | some v => pyTruthy v
  | none => false

/-- Python `list(x)` on an iterable `ArgVal`: a string yields its
characters as one-character strings, a list yields its elements, a dict
yields its keys in insertion order.  Ints and bools are not iterable; the
function is only applied to values satisfying `rule_matches .iterableT`. -/
def pyListElems : ArgVal → List String
  | .strA s => s.data.map (fun c => String.mk [c])
  | .listA xs => xs
  | .dictA kvs => kvs.map Prod.fst
  | .intA _ => []
  | .boolA _ => []

/-- The keys of the `default_mapping` dictionaries of `CLI.default_var` and
`PDFTK.format_input_vars`: the Python types `str`, `Iterable`, `dict`, the
entry `None`, and `object`, dispatched in dictionary insertion order. -/
inductive RuleKey where
  | strT
  | iterableT
  | dictT
  | noneT
  | objectT
deriving DecidableEq, Repr

/-- The `isinstance`-style test of `CLI.default_vars`: a rule key matches a
value when `type_ is not None and isinstance(var, type_)` holds, or when
the key is the `None` entry and the value is Python `None`.  Strings,
lists and dicts are all instances of `Iterable`; every non-`None` value
(and also `None`) is an instance of `object`. -/
def rule_matches : RuleKey → Option ArgVal → Bool
  | .strT, some (.strA _) => true
  | .strT, _ => false
  | .iterableT, some (.strA _) => true
  | .iterableT, some (.listA _) => true
  | .iterableT, some (.dictA _) => true
  | .iterableT, _ => false
  | .dictT, some (.dictA _) => true
  | .dictT, _ => false
  | .noneT, none => true
  | .noneT, _ => false
  | .objectT, _ => true

/-- The formatter `default_mapping[type_](var)` attached to each rule key:
`str` wraps the string, `Iterable` takes `list(x)`, `dict` renders
`"key=value"` entries, the `None` entry returns the caller-supplied
default, and `object` takes `[str(x)]`.  Only applied to a matching rule. -/
def apply_rule (r : RuleKey) (default : List String) (var : Option ArgVal) : List String :=
  match r, var with
  | .strT, some (.strA s) => [s]
  | .iterableT, some v => pyListElems v
  | .dictT, some (.dictA kvs) => kvs.map (fun kv => kv.1 ++ "=" ++ kv.2)
  | .noneT, _ => default
  | .objectT, some v => [pyStr v]
  | _, _ => []

/-- The first key of `default_mapping` whose rule matches `var`, in
dictionary insertion order — the rule `CLI.default_vars` selects. -/
def CLI.first_matching_rule (rules : List RuleKey) (var : Option ArgVal) : Option RuleKey :=
  rules.find? (fun r => rule_matches r var)

/-- Embedding of `CLI.default_vars` (src/cli.py:62-71): walk the `default_mapping` keys
in order, apply the first matching rule's formatter, and raise
`Exception("Default not defined for type ...")` when no rule matches. -/
def CLI.default_vars (rules : List RuleKey) (default : List String)
    (var : Option ArgVal) : Except PyError (List String) :=
  match CLI.first_matching_rule rules var with
  | some r => .ok (apply_rule r default var)
  | none => .error (.shapeError "Default not defined for type")

/-- Embedding of `CLI.default_var` (src/cli.py:73-84): dispatch over the mapping
`{str, Iterable, None, object}`, where the `None` rule yields the
caller-supplied `default`. -/
def CLI.default_var (default : List String) (var : Option ArgVal) :
    Except PyError (List String) :=
  CLI.default_vars [.strT, .iterableT, .noneT, .objectT] default var

/-- Embedding of `CLI.format_op_args` (src/cli.py:86-98): `[]` for `None`,
`[op, arg]` for a string, `[op] + list(arg)` for another iterable,
`[op, str(arg)]` otherwise. -/
def CLI.format_op_args (op : String) (arg : Option ArgVal) : List String :=
  match arg with
  | none => []
  | some (.strA s) => [op, s]
  | some (.listA xs) => op :: xs
  | some (.dictA kvs) => op :: kvs.map Prod.fst
  | some v => [op, pyStr v]

/-- Embedding of `CLI.format_option` (src/cli.py:100-107): `[option]` when
`options.get(option)` is truthy, else the supplied default.  The looked-up
value `options.get(option)` is passed in directly. -/
def CLI.format_option (looked_up : Option ArgVal) (option : String)
    (default : List String) : List String :=
  if pyTruthyOpt looked_up then [option] else default

/-- Embedding of `utils.flatten` (src/utils.py:25-31): `["-" + key, value]` pairs in
insertion order; `None` yields the empty list. -/
def flatten (arg_map : Option (List (String × String))) : List String :=
  match arg_map with
  | none => []
  | some l => l.flatMap (fun kv => ["-" ++ kv.1, kv.2])

/-- Embedding of `CLI.run` (src/cli.py:139-148), shared by all three bindings: on an
empty-argument invocation execute the binding's `empty_command`; otherwise
validate input, output, operators, options in that order (each validator
raising `Except.error` aborts the rest), then assemble and execute
`prepare_command`.  The returned list is the command handed to
`subprocess.run`. -/
def CLI.run_protocol (empty_command : List String) (args_empty : Bool)
    (v_input v_output v_operators v_options : Except PyError Unit)
    (command : List String) : Except PyError (List String) :=
  if args_empty then
    .ok empty_command
  else do
    let _ ← v_input
    let _ ← v_output
    let _ ← v_operators
    let _ ← v_options
    pure command

/-- The fixed search semantics of `re.search(r'.+\.pdf|PROMPT', i)` used by
`PDFTK.validate_output`: helper checking that `needle` is a prefix of
`hay`. -/
def starts_with_chars : List Char → List Char → Bool
  | [], _ => true
  | _ :: _, [] => false
  | c :: cs, d :: ds => c == d && starts_with_chars cs ds

/-- Whether `needle` occurs as a contiguous run anywhere in `hay`. -/
def contains_chars (needle : List Char) : List Char → Bool
  | [] => starts_with_chars needle []
  | c :: t => starts_with_chars needle (c :: t) || contains_chars needle t

/-- Search success of the branch `.+\.pdf`: there is an occurrence of
".pdf" at some position ≥ 1 whose preceding character is not a newline
(`.` matches any character except newline, and `.+` needs at least one). -/
def dot_plus_pdf : List Char → Bool
  | [] => false
  | c :: t => (c != '\n' && starts_with_chars ".pdf".data t) || dot_plus_pdf t

/-- Whether `re.search(r'.+\.pdf|PROMPT', s)` succeeds. -/
def pdftk_output_matches (s : String) : Bool :=
  dot_plus_pdf s.data || contains_chars "PROMPT".data s.data

/-- Python's whitespace class `\s` over the characters of this model. -/
def isPySpace (c : Char) : Bool :=
  c == ' ' || c == '\t' || c == '\n' || c == '\r' || c == '\x0b' || c == '\x0c'

/-- Whether `re.search(r'\S+', s)` succeeds: some character is non-whitespace. -/
def has_non_space (s : String) : Bool :=
  s.data.any (fun c => !isPySpace c)

/-- The `operators` mapping handed to the PDF binding, modelled by the keys
`PDFTK.assign_operators` looks up with `.get` (absent key = `none`). -/
structure PdftkOperators where
  input_pw : Option ArgVal := none
  operation : Option ArgVal := none
  operation_arguments : Option ArgVal := none
  allow : Option ArgVal := none
  owner_pw : Option ArgVal := none
  user_pw : Option ArgVal := none
deriving DecidableEq, Repr

/-- The `options` mapping handed to the PDF binding, modelled by the keys
`PDFTK.assign_options` looks up with `.get` (absent key = `none`). -/
structure PdftkOptions where
  encrypt : Option ArgVal := none
  flatten : Option ArgVal := none
  need_appearances : Option ArgVal := none
  compress : Option ArgVal := none
  uncompress : Option ArgVal := none
  keep_first_id : Option ArgVal := none
  keep_final_id : Option ArgVal := none
  drop_xfa : Option ArgVal := none
  verbose : Option ArgVal := none
  ask : Option ArgVal := none
deriving DecidableEq, Repr

/-- The PDF binding's attributes (src/pdftk.py `__slots__`): one token
group per attribute, assigned once by `PDFTK.init` below. -/
structure PDFTK where
  input : List String := []
  output : List String := []
  input_pw : List String := []
  operation : List String := []
  operation_arguments : List String := []
  allow : List String := []
  owner_pw : List String := []
  user_pw : List String := []
  encrypt : List String := []
  flatten : List String := []
  need_appearances : List String := []
  compress : List String := []
  uncompress : List String := []
  keep_first_id : List String := []
  keep_final_id : List String := []
  drop_xfa : List String := []
  verbose : List String := []
  ask : List String := []
deriving DecidableEq, Repr

/-- Embedding of `PDFTK.empty_command` (src/pdftk.py:20). -/
def PDFTK.empty_command : List String := ["pdftk", "--version"]

/-- Embedding of `PDFTK.format_input_vars` (src/pdftk.py:229-236): dispatch over the
mapping `{str, Iterable, dict, None, object}` with default `[]` for the
`None` rule. -/
def PDFTK.format_input_vars (var : Option ArgVal) : Except PyError (List String) :=
  CLI.default_vars [.strT, .iterableT, .dictT, .noneT, .objectT] [] var

/-- Embedding of `PDFTK.format_ask` (src/pdftk.py:238-243). -/
def PDFTK.format_ask (ask : Option ArgVal) : List String :=
  if pyTruthyOpt ask then ["ask"] else ["dont_ask"]

/-- Embedding of `PDFTK.format_encrypt` (src/pdftk.py:245-255): `None` yields no
tokens, `40`/`128` yield the corresponding token, anything else raises a
plain `Exception` (not a `ValidationError`). -/
def PDFTK.format_encrypt (encrypt : Option ArgVal) : Except PyError (List String) :=
  match encrypt with
  | none => .ok []
  | some v =>
    if v = .intA 40 then .ok ["encrypt_40bit"]
    else if v = .intA 128 then .ok ["encrypt_128bit"]
    else .error (.configError "Invalid encrypt option. Value must be 40 or 128")

/-- Embedding of `PDFTK.assign_input` (src/pdftk.py:71-75). -/
def PDFTK.assign_input (input_ : Option ArgVal) : Except PyError (List String) :=
  match input_ with
  | some v => PDFTK.format_input_vars (some v)
  | none => .ok []

/-- Embedding of `PDFTK.assign_output` (src/pdftk.py:77-81). -/
def PDFTK.assign_output (output : Option String) : List String :=
  match output with
  | some o => CLI.format_op_args "output" (some (.strA o))
  | none => []

/-- Embedding of `PDFTK.assign_operators` (src/pdftk.py:83-96): the six token groups in
the order of the returned tuple — input_pw, operation,
operation_arguments, allow, owner_pw, user_pw. -/
def PDFTK.assign_operators (operators : Option PdftkOperators) :
    Except PyError (List String × List String × List String ×
                    List String × List String × List String) :=
  match operators with
  | none => .ok ([], [], [], [], [], [])
  | some ops => do
    let input_pw ← PDFTK.format_input_vars ops.input_pw
    let operation ← CLI.default_var [] ops.operation
    let operation_arguments ← CLI.default_var [] ops.operation_arguments
    pure (input_pw, operation, operation_arguments,
          CLI.format_op_args "allow" ops.allow,
          CLI.format_op_args "owner_pw" ops.owner_pw,
          CLI.format_op_args "user_pw" ops.user_pw)

/-- Embedding of `PDFTK.assign_options` (src/pdftk.py:98-114): the ten token groups in
the order of the returned tuple as written in the source — encrypt,
flatten, need_appearances, compress, uncompress, then `drop_xfa`, then
`keep_first_id`, then `keep_final_id`, then verbose, then ask. -/
def PDFTK.assign_options (options : Option PdftkOptions) :
    Except PyError (List String × List String × List String × List String ×
                    List String × List String × List String × List String ×
                    List String × List String) :=
  match options with
  | none => .ok ([], [], [], [], [], [], [], [], [], [])
  | some o => do
    let encrypt ← PDFTK.format_encrypt o.encrypt
    pure (encrypt,
          CLI.format_option o.flatten "flatten" [],
          CLI.format_option o.need_appearances "need_appearances" [],
          CLI.format_option o.compress "compress" [],
          CLI.format_option o.uncompress "uncompress" [],
          CLI.format_option o.drop_xfa "drop_xfa" [],
          CLI.format_option o.keep_first_id "keep_first_id" [],
          CLI.format_option o.keep_final_id "keep_final_id" [],
          CLI.format_option o.verbose "verbose" [],
          PDFTK.format_ask o.ask)

/-- Embedding of `PDFTK.__init__` (src/pdftk.py:41-69): assign input and output, then
unpack the `assign_operators` tuple into (input_pw, operation,
operation_arguments, allow, owner_pw, user_pw) and the `assign_options`
tuple into (encrypt, flatten, need_appearances, compress, uncompress,
keep_first_id, keep_final_id, drop_xfa, verbose, ask) — the attribute
names in the order the source unpacks them. -/
def PDFTK.init (input_ : Option ArgVal) (output : Option String)
    (operators : Option PdftkOperators) (options : Option PdftkOptions) :
    Except PyError PDFTK := do
  let input ← PDFTK.assign_input input_
  let output := PDFTK.assign_output output
  let (input_pw, operation, operation_arguments, allow, owner_pw, user_pw) ←
    PDFTK.assign_operators operators
  let (encrypt, flatten, need_appearances, compress, uncompress,
       keep_first_id, keep_final_id, drop_xfa, verbose, ask) ←
    PDFTK.assign_options options
  pure { input, output, input_pw, operation, operation_arguments, allow,
         owner_pw, user_pw, encrypt, flatten, need_appearances, compress,
         uncompress, keep_first_id, keep_final_id, drop_xfa, verbose, ask }

/-- Embedding of `PDFTK.validate_input` (src/pdftk.py:116-123): each input token must
be an existing file or the literal "PROMPT"; the first offending token is
named in the raised `ValidationError`.  Tokens are strings in this model,
so the `isinstance(i, str)` assertion always holds.  `fs` is the list of
existing file paths. -/
def PDFTK.validate_input (fs : List String) (t : PDFTK) : Except PyError Unit :=
  match t.input.find? (fun i => !(fs.contains i || i == "PROMPT")) with
  | some i => .error (.validationError ("Invalid input value: " ++ i))
  | none => .ok ()

/-- Embedding of `PDFTK.validate_output` (src/pdftk.py:125-133): when output tokens are
present, each token after the leading "output" flag must satisfy
`re.search(r'.+\.pdf|PROMPT', i)` and must not appear among the input
tokens; the first offending token is named in the raised error. -/
def PDFTK.validate_output (t : PDFTK) : Except PyError Unit :=
  if t.output = [] then .ok ()
  else
    match (t.output.drop 1).find?
        (fun i => !(pdftk_output_matches i && !(t.input.contains i))) with
    | some i => .error (.validationError ("Invalid output value: " ++ i))
    | none => .ok ()

/-- The `allowable_ops` list of `PDFTK.validate_operation`
(src/pdftk.py:153-173). -/
def PDFTK.allowable_ops : List String :=
  ["cat", "shuffle", "burst", "rotate", "generate_fdf", "fill_form",
   "background", "multibackground", "stamp", "multistamp", "dump_data",
   "dump_data_utf8", "dump_data_fields", "dump_data_fields_utf8",
   "dump_data_anots", "update_info", "update_info_utf8", "attach_files",
   "unpack_files"]

/-- Embedding of `PDFTK.validate_operation` (src/pdftk.py:152-181). -/
def PDFTK.validate_operation (t : PDFTK) : Except PyError Unit :=
  if t.operation ≠ [] then
    if t.operation.length = 1 && PDFTK.allowable_ops.contains (t.operation.headD "") then
      .ok ()
    else
      .error (.validationError ("Invalid operation: " ++ String.intercalate " " t.operation))
  else .ok ()

/-- The `allowable` permission list of `PDFTK.validate_permissions`
(src/pdftk.py:187-198); the leading "allow" flag token itself is listed. -/
def PDFTK.allowable_permissions : List String :=
  ["allow", "Printing", "DegradedPrinting", "ModifyContents", "Assembly",
   "CopyContents", "ScreenReaders", "ModifyAnnotations", "FillIn",
   "AllFeatures"]

/-- Embedding of `PDFTK.validate_permissions` (src/pdftk.py:186-206): collect every
token of the `allow` group outside the allowable list and fail when any
exist. -/
def PDFTK.validate_permissions (t : PDFTK) : Except PyError Unit :=
  let not_in_allowable := t.allow.filter (fun i => !PDFTK.allowable_permissions.contains i)
  if not_in_allowable = [] then .ok ()
  else .error (.validationError ("Invalid permission(s): " ++ String.intercalate " " not_in_allowable))

/-- Embedding of `PDFTK.validate_pw` (src/pdftk.py:213-219): when the token group is
non-empty, `re.search(r'\S+', pw[0])` must succeed on its FIRST token
(which for owner_pw/user_pw is the flag token itself, not the password). -/
def PDFTK.validate_pw (pw_type : String) (pw : List String) : Except PyError Unit :=
  match pw with
  | [] => .ok ()
  | p :: _ =>
    if has_non_space p then .ok ()
    else .error (.validationError ("Invalid " ++ pw_type ++ ": " ++ p))

/-- Embedding of `PDFTK.validate_pws` (src/pdftk.py:208-211). -/
def PDFTK.validate_pws (t : PDFTK) : Except PyError Unit := do
  let _ ← PDFTK.validate_pw "input_pw" t.input_pw
  let _ ← PDFTK.validate_pw "owner_pw" t.owner_pw
  PDFTK.validate_pw "user_pw" t.user_pw

/-- Embedding of `PDFTK.validate_operators` (src/pdftk.py:135-139);
`validate_operation_args` (line 183-184) is a no-op. -/
def PDFTK.validate_operators (t : PDFTK) : Except PyError Unit := do
  let _ ← PDFTK.validate_operation t
  let _ ← PDFTK.validate_permissions t
  PDFTK.validate_pws t

/-- Embedding of `PDFTK.validate_option` (src/pdftk.py:221-227): when the option token
group is non-empty its first token must be among the valid literals. -/
def PDFTK.validate_option (option : List String) (valid : List String) :
    Except PyError Unit :=
  match option with
  | [] => .ok ()
  | o :: _ =>
    if valid.contains o then .ok ()
    else .error (.validationError ("Invalid option " ++ o))

/-- Embedding of `PDFTK.validate_options` (src/pdftk.py:141-150): validate each option
attribute against its allowed literals, in source order; note that
`verbose` is not validated. -/
def PDFTK.validate_options (t : PDFTK) : Except PyError Unit := do
  let _ ← PDFTK.validate_option t.encrypt ["encrypt_40bit", "encrypt_128bit"]
  let _ ← PDFTK.validate_option t.flatten ["flatten"]
  let _ ← PDFTK.validate_option t.need_appearances ["need_appearances"]
  let _ ← PDFTK.validate_option t.compress ["compress"]
  let _ ← PDFTK.validate_option t.uncompress ["uncompress"]
  let _ ← PDFTK.validate_option t.keep_first_id ["keep_first_id"]
  let _ ← PDFTK.validate_option t.keep_final_id ["keep_final_id"]
  let _ ← PDFTK.validate_option t.drop_xfa ["drop_xfa"]
  PDFTK.validate_option t.ask ["ask", "dont_ask"]

/-- Embedding of `PDFTK.test_args_empty` (src/pdftk.py:257-260). -/
def PDFTK.test_args_empty (t : PDFTK) : Bool :=
  t.input == [] && t.output == [] && t.operation == []

/-- Embedding of `PDFTK.prepare_command` (src/pdftk.py:262-284): concatenation of the
attribute token groups in the source's fixed order. -/
def PDFTK.prepare_command (t : PDFTK) : List String :=
  ["pdftk"] ++ t.input ++ t.input_pw ++ t.operation ++ t.operation_arguments
    ++ t.output ++ t.encrypt ++ t.allow ++ t.owner_pw ++ t.user_pw
    ++ t.flatten ++ t.need_appearances ++ t.compress ++ t.uncompress
    ++ t.keep_first_id ++ t.keep_final_id ++ t.drop_xfa ++ t.verbose
    ++ t.ask

/-- Embedding of `CLI.run` instantiated at the PDF binding. -/
def PDFTK.run (fs : List String) (t : PDFTK) : Except PyError (List String) :=
  CLI.run_protocol PDFTK.empty_command (PDFTK.test_args_empty t)
    (PDFTK.validate_input fs t) (PDFTK.validate_output t)
    (PDFTK.validate_operators t) (PDFTK.validate_options t)
    (PDFTK.prepare_command t)

/-- An ImageMagick operator descriptor `{"type": ..., "position": ...,
"value": ...}` (src/magick.py). -/
structure MagickSetting where
  type_ : String
  position : String
  value : ArgVal
deriving DecidableEq, Repr

/-- The image binding's attributes (src/magick.py `__slots__` plus the two
settings groups assigned in `__init__`). -/
structure Magick where
  input : List String := []
  output : List String := []
  pre_image_settings : List String := []
  post_image_settings : List String := []
deriving DecidableEq, Repr

/-- Embedding of `Magick.empty_command` (src/magick.py:57). -/
def Magick.empty_command : List String := ["magick", "-version"]

/-- Embedding of `Magick.get_settings` (src/magick.py:133-138): the operators with type
"setting" and the given position, their values converted with `str`,
insertion order preserved. -/
def Magick.get_settings (operators : List (String × MagickSetting))
    (position : String) : List (String × String) :=
  (operators.filter (fun kv => kv.2.type_ == "setting" && kv.2.position == position)).map
    (fun kv => (kv.1, pyStr kv.2.value))

/-- Embedding of `Magick.assign_operators` (src/magick.py:92-98): partition by position
then flatten each partition. -/
def Magick.assign_operators (operators : Option (List (String × MagickSetting))) :
    List String × List String :=
  match operators with
  | some ops =>
    (flatten (some (Magick.get_settings ops "pre")),
     flatten (some (Magick.get_settings ops "post")))
  | none => ([], [])

/-- Embedding of `Magick.__init__` (src/magick.py:68-82): input via `default_var` with
default `[]`, output wrapped as a singleton when present, operators split
into pre/post image settings. -/
def Magick.init (input_ : Option ArgVal) (output : Option String)
    (operators : Option (List (String × MagickSetting))) :
    Except PyError Magick := do
  let input ← CLI.default_var [] input_
  let output := match output with
    | some o => [o]
    | none => []
  let (pre_image_settings, post_image_settings) := Magick.assign_operators operators
  pure { input, output, pre_image_settings, post_image_settings }

/-- Embedding of `Magick.prepare_command` (src/magick.py:104-109). -/
def Magick.prepare_command (m : Magick) : List String :=
  ["magick"] ++ m.pre_image_settings ++ m.input ++ m.post_image_settings ++ m.output

/-- Embedding of `Magick.test_args_empty` (src/magick.py:126-131). -/
def Magick.test_args_empty (m : Magick) : Bool :=
  m.pre_image_settings == [] && m.input == [] && m.post_image_settings == []
    && m.output == []

/-- Embedding of `Magick.validate_input` through `validate_options` (src/magick.py:111-121)
are all `...` bodies: they never fail. -/
def Magick.validate_noop : Except PyError Unit := .ok ()

/-- Embedding of `CLI.run` instantiated at the image binding. -/
def Magick.run (m : Magick) : Except PyError (List String) :=
  CLI.run_protocol Magick.empty_command (Magick.test_args_empty m)
    Magick.validate_noop Magick.validate_noop Magick.validate_noop
    Magick.validate_noop (Magick.prepare_command m)

/-- The OCR binding's attributes (src/tesseract.py `__slots__`). -/
structure Tesseract where
  input : List String := []
  output : List String := []
  options : List String := []
  config_file : List String := []
deriving DecidableEq, Repr

/-- Embedding of `Tesseract.empty_command` (src/tesseract.py:12). -/
def Tesseract.empty_command : List String := ["tesseract", "--version"]

/-- Embedding of `Tesseract.__init__` (src/tesseract.py:19-49): input via `default_var`,
output wrapped when present, operators flattened then passed through
`default_var` (a list, so the Iterable rule returns it unchanged), and the
trailing options token group via `default_var`. -/
def Tesseract.init (input_ : Option ArgVal) (output : Option String)
    (operators : Option (List (String × String))) (options : Option ArgVal) :
    Except PyError Tesseract := do
  let input ← CLI.default_var [] input_
  let output := match output with
    | some o => [o]
    | none => []
  let opts ← CLI.default_var [] (some (.listA (flatten operators)))
  let config_file ← CLI.default_var [] options
  pure { input, output, options := opts, config_file }

/-- Embedding of `Tesseract.prepare_command` (src/tesseract.py:51-56). -/
def Tesseract.prepare_command (t : Tesseract) : List String :=
  ["tesseract"] ++ t.input ++ t.output ++ t.options ++ t.config_file

/-- Embedding of `Tesseract.test_args_empty` (src/tesseract.py:73-77). -/
def Tesseract.test_args_empty (t : Tesseract) : Bool :=
  t.input == [] && t.output == [] && t.options == [] && t.config_file == []

/-- Embedding of `Tesseract.validate_input` through `validate_options`
(src/tesseract.py:58-68) are all `...` bodies: they never fail. -/
def Tesseract.validate_noop : Except PyError Unit := .ok ()

/-- Embedding of `CLI.run` instantiated at the OCR binding. -/
def Tesseract.run (t : Tesseract) : Except PyError (List String) :=
  CLI.run_protocol Tesseract.empty_command (Tesseract.test_args_empty t)
    Tesseract.validate_noop Tesseract.validate_noop Tesseract.validate_noop
    Tesseract.validate_noop (Tesseract.prepare_command t)

/-- A PDF invocation whose input ("missing.pdf" on an empty filesystem)
and output ("report.txt") are simultaneously invalid. -/
def pdftkBothInvalid : PDFTK :=
  { input := ["missing.pdf"], output := ["output", "report.txt"] }

/-- A PDF invocation with empty input/output/operation but a non-empty
ask option group and an invalid permission group. -/
def pdftkOnlyOptions : PDFTK :=
  { allow := ["allow", "bogus"], ask := ["dont_ask"] }

/-- A PDF invocation whose only input is the non-existent "missing.pdf". -/
def pdftkMissingInput : PDFTK := { input := ["missing.pdf"] }

/-- A PDF invocation whose only input is the sentinel "PROMPT". -/
def pdftkPromptInput : PDFTK := { input := ["PROMPT"] }

/-- A PDF invocation whose output "report.txt" has the wrong extension. -/
def pdftkTxtOutput : PDFTK :=
  { input := ["PROMPT"], output := ["output", "report.txt"] }

/-- A PDF invocation whose output "report.pdf" is also an input token. -/
def pdftkClobberOutput : PDFTK :=
  { input := ["report.pdf"], output := ["output", "report.pdf"] }

/-- C9: for every value of every shape (string, non-string iterable, None,
or any other object), the formatter dispatch of `CLI.default_var` and of
`PDFTK.format_input_vars` returns a token list without raising: the
"Default not defined" branch is unreachable because the rule set ends with
a None rule and a catch-all object rule. -/
theorem claim_c9_formatter_total (d : List String) (v : Option ArgVal) :
    (∃ ts, CLI.default_var d v = .ok ts) ∧
    (∃ ts, PDFTK.format_input_vars v = .ok ts) := by
  constructor
  · cases v with
    | none => exact ⟨_, rfl⟩
    | some a => cases a <;> exact ⟨_, rfl⟩
  · cases v with
    | none => exact ⟨_, rfl⟩
    | some a => cases a <;> exact ⟨_, rfl⟩

/-- C10: a non-empty mapping supplied as the PDF binding's input (or as
the input_pw operator) is formatted by `PDFTK.format_input_vars` to its
keys alone, in insertion order: the non-string-iterable rule is selected
before the dict rule, so the key=value tokens the dict rule would build —
and hence the mapping's values — never reach the assembled command. -/
theorem claim_c10_dict_input_keys (kvs : List (String × String)) (h : kvs ≠ []) :
    PDFTK.format_input_vars (some (.dictA kvs)) = .ok (kvs.map Prod.fst) ∧
    CLI.first_matching_rule [.strT, .iterableT, .dictT, .noneT, .objectT]
        (some (.dictA kvs)) = some .iterableT ∧
    (PDFTK.init (some (.dictA kvs)) none none none).map PDFTK.input =
      .ok (kvs.map Prod.fst) ∧
    (PDFTK.assign_operators (some { input_pw := some (.dictA kvs) })).map
        (fun g => g.1) = .ok (kvs.map Prod.fst) :=
  ⟨rfl, rfl, rfl, rfl⟩

/-- Witness for C10 at the mapping [("a", "1"), ("b", "2")]. -/
theorem claim_c10_dict_input_keys_witness :
    PDFTK.format_input_vars (some (.dictA [("a", "1"), ("b", "2")])) =
      .ok ["a", "b"] ∧
    CLI.first_matching_rule [.strT, .iterableT, .dictT, .noneT, .objectT]
        (some (.dictA [("a", "1"), ("b", "2")])) = some .iterableT ∧
    (PDFTK.init (some (.dictA [("a", "1"), ("b", "2")])) none none none).map
        PDFTK.input = .ok ["a", "b"] ∧
    (PDFTK.assign_operators
        (some { input_pw := some (.dictA [("a", "1"), ("b", "2")]) })).map
        (fun g => g.1) = .ok ["a", "b"] :=
  claim_c10_dict_input_keys [("a", "1"), ("b", "2")] (by decide)

/-- C6: encryption value 40 produces the single token "encrypt_40bit",
128 produces "encrypt_128bit", an absent value produces no tokens, and
every other value raises — at construction time — an error distinct from
a ValidationError. -/
theorem claim_c6_encrypt_levels :
    PDFTK.format_encrypt (some (.intA 40)) = .ok ["encrypt_40bit"] ∧
    PDFTK.format_encrypt (some (.intA 128)) = .ok ["encrypt_128bit"] ∧
    PDFTK.format_encrypt none = .ok [] ∧
    (∀ v : Option ArgVal, v ≠ none → v ≠ some (.intA 40) → v ≠ some (.intA 128) →
      PDFTK.format_encrypt v =
        .error (.configError "Invalid encrypt option. Value must be 40 or 128")) ∧
    (∀ msg msg2, PyError.configError msg ≠ PyError.validationError msg2) ∧
    PDFTK.init (some (.strA "PROMPT")) none none
        (some { encrypt := some (.intA 64) }) =
      .error (.configError "Invalid encrypt option. Value must be 40 or 128") := by
  refine ⟨rfl, rfl, rfl, ?_, fun _ _ h => PyError.noConfusion h, rfl⟩
  intro v h0 h40 h128
  match v with
  | none => exact absurd rfl h0
  | some a =>
    have ha40 : a ≠ ArgVal.intA 40 := fun hc => h40 (by rw [hc])
    have ha128 : a ≠ ArgVal.intA 128 := fun hc => h128 (by rw [hc])
    simp [PDFTK.format_encrypt, ha40, ha128]

/-- Witness for C6 at the encryption value 64. -/
theorem claim_c6_encrypt_levels_witness :
    PDFTK.format_encrypt (some (.intA 64)) =
      .error (.configError "Invalid encrypt option. Value must be 40 or 128") :=
  claim_c6_encrypt_levels.2.2.2.1 (some (.intA 64))
    (by decide) (by decide) (by decide)

/-- C8: the image binding partitions setting descriptors by position,
stringifies their values, and assembles tool name, pre-image settings,
input, post-image settings, output; the operator map with density pre 300
and depth post 8, input "a.pdf", output "a.tiff" yields exactly
["magick", "-density", "300", "a.pdf", "-depth", "8", "a.tiff"]. -/
theorem claim_c8_magick_assembly :
    (Magick.init (some (.strA "a.pdf")) (some "a.tiff")
        (some [("density", ⟨"setting", "pre", .intA 300⟩),
               ("depth", ⟨"setting", "post", .intA 8⟩)])).map Magick.prepare_command =
      .ok ["magick", "-density", "300", "a.pdf", "-depth", "8", "a.tiff"] ∧
    (∀ ops : List (String × MagickSetting),
      Magick.assign_operators (some ops) =
        (flatten (some (Magick.get_settings ops "pre")),
         flatten (some (Magick.get_settings ops "post")))) ∧
    (∀ m : Magick, Magick.prepare_command m =
      ["magick"] ++ m.pre_image_settings ++ m.input ++ m.post_image_settings
        ++ m.output) :=
  ⟨rfl, fun _ => rfl, fun _ => rfl⟩

/-- C2 fails on the code: the tuple returned by `PDFTK.assign_options`
lists drop_xfa before keep_first_id and keep_final_id, but `__init__`
unpacks that tuple into the attributes in the order keep_first_id,
keep_final_id, drop_xfa.  Hence a truthy drop_xfa option lands in the
keep_first_id attribute (so the assembled token order is flatten,
need_appearances, compress, uncompress, drop_xfa, keep_first_id,
keep_final_id, verbose, ask), and `PDFTK.validate_options` then rejects
the very tokens the constructor produced. -/
theorem claim_c2_option_order_bug :
    (∃ t : PDFTK,
      PDFTK.init (some (.strA "PROMPT")) none none
          (some { drop_xfa := some (.boolA true) }) = .ok t ∧
      t.keep_first_id = ["drop_xfa"] ∧ t.drop_xfa = [] ∧
      PDFTK.validate_options t =
        .error (.validationError "Invalid option drop_xfa")) ∧
    (∃ t : PDFTK,
      PDFTK.init (some (.strA "PROMPT")) none none
          (some { flatten := some (.boolA true),
                  need_appearances := some (.boolA true),
                  compress := some (.boolA true),
                  uncompress := some (.boolA true),
                  keep_first_id := some (.boolA true),
                  keep_final_id := some (.boolA true),
                  drop_xfa := some (.boolA true),
                  verbose := some (.boolA true),
                  ask := some (.boolA true) }) = .ok t ∧
      PDFTK.prepare_command t =
        ["pdftk", "PROMPT", "flatten", "need_appearances", "compress",
         "uncompress", "drop_xfa", "keep_first_id", "keep_final_id",
         "verbose", "ask"]) :=
  ⟨⟨_, rfl, rfl, rfl, rfl⟩, ⟨_, rfl, rfl⟩⟩

/-- C3 fails on the code for the owner and user passwords:
`PDFTK.validate_pw` tests `pw[0]`, which for owner_pw/user_pw is the flag
token itself, so an empty or whitespace-only owner or user password
passes validation; only input_pw (whose token group has no flag) is
actually checked. -/
theorem claim_c3_password_validation_gap :
    (∃ t : PDFTK,
      PDFTK.init (some (.strA "PROMPT")) none
          (some { owner_pw := some (.strA "") }) none = .ok t ∧
      t.owner_pw = ["owner_pw", ""] ∧
      PDFTK.validate_pws t = .ok () ∧ PDFTK.validate_operators t = .ok ()) ∧
    (∃ t : PDFTK,
      PDFTK.init (some (.strA "PROMPT")) none
          (some { user_pw := some (.strA " ") }) none = .ok t ∧
      PDFTK.validate_pws t = .ok ()) ∧
    (∃ t : PDFTK,
      PDFTK.init (some (.strA "PROMPT")) none
          (some { input_pw := some (.strA "") }) none = .ok t ∧
      PDFTK.validate_pws t = .error (.validationError "Invalid input_pw: ")) :=
  ⟨⟨_, rfl, rfl, rfl, rfl⟩, ⟨_, rfl, rfl⟩, ⟨_, rfl, rfl⟩⟩

/-- C1: for every binding (all three run through `CLI.run_protocol`, as
the last three conjuncts record) and every non-noop invocation, validation
runs strictly in input, output, operators, options order: the first
failing validator's error is the result, later validators are never
consulted, and no command is produced; only when all four succeed is the
assembled command returned. -/
theorem claim_c1_validation_order (ec cmd : List String)
    (vi vo vops vopts : Except PyError Unit) :
    (∀ e, vi = .error e →
      CLI.run_protocol ec false vi vo vops vopts cmd = .error e) ∧
    (∀ e, vi = .ok () → vo = .error e →
      CLI.run_protocol ec false vi vo vops vopts cmd = .error e) ∧
    (∀ e, vi = .ok () → vo = .ok () → vops = .error e →
      CLI.run_protocol ec false vi vo vops vopts cmd = .error e) ∧
    (∀ e, vi = .ok () → vo = .ok () → vops = .ok () → vopts = .error e →
      CLI.run_protocol ec false vi vo vops vopts cmd = .error e) ∧
    (vi = .ok () → vo = .ok () → vops = .ok () → vopts = .ok () →
      CLI.run_protocol ec false vi vo vops vopts cmd = .ok cmd) ∧
    (∀ (fs : List String) (t : PDFTK), PDFTK.run fs t =
      CLI.run_protocol PDFTK.empty_command (PDFTK.test_args_empty t)
        (PDFTK.validate_input fs t) (PDFTK.validate_output t)
        (PDFTK.validate_operators t) (PDFTK.validate_options t)
        (PDFTK.prepare_command t)) ∧
    (∀ m : Magick, Magick.run m =
      CLI.run_protocol Magick.empty_command (Magick.test_args_empty m)
        Magick.validate_noop Magick.validate_noop Magick.validate_noop
        Magick.validate_noop (Magick.prepare_command m)) ∧
    (∀ t : Tesseract, Tesseract.run t =
      CLI.run_protocol Tesseract.empty_command (Tesseract.test_args_empty t)
        Tesseract.validate_noop Tesseract.validate_noop Tesseract.validate_noop
        Tesseract.validate_noop (Tesseract.prepare_command t)) := by
  refine ⟨?_, ?_, ?_, ?_, ?_, fun _ _ => rfl, fun _ => rfl, fun _ => rfl⟩
  · intro e h1; subst h1; rfl
  · intro e h1 h2; subst h1; subst h2; rfl
  · intro e h1 h2 h3; subst h1; subst h2; subst h3; rfl
  · intro e h1 h2 h3 h4; subst h1; subst h2; subst h3; subst h4; rfl
  · intro h1 h2 h3 h4; subst h1; subst h2; subst h3; subst h4; rfl

/-- Witness for C1: with input and output both invalid, `PDFTK.run`
reports only the input failure. -/
theorem claim_c1_validation_order_witness :
    PDFTK.run [] pdftkBothInvalid =
      .error (.validationError "Invalid input value: missing.pdf") := by
  have h := (claim_c1_validation_order PDFTK.empty_command
      (PDFTK.prepare_command pdftkBothInvalid)
      (PDFTK.validate_input [] pdftkBothInvalid)
      (PDFTK.validate_output pdftkBothInvalid)
      (PDFTK.validate_operators pdftkBothInvalid)
      (PDFTK.validate_options pdftkBothInvalid)).1
      (.validationError "Invalid input value: missing.pdf") rfl
  exact h

/-- C7: the PDF binding's noop test holds exactly when the input, output
and operation token groups are all empty — the option and remaining
operator groups play no role — and in that case `PDFTK.run` executes the
health-check command ["pdftk", "--version"] with no validation performed
(the token groups that validation would inspect are unconstrained). -/
theorem claim_c7_noop_health_check (fs : List String) (t : PDFTK) :
    (PDFTK.test_args_empty t = true ↔
      (t.input = [] ∧ t.output = [] ∧ t.operation = [])) ∧
    (t.input = [] → t.output = [] → t.operation = [] →
      PDFTK.run fs t = .ok ["pdftk", "--version"]) := by
  constructor
  · simp [PDFTK.test_args_empty, and_assoc]
  · intro h1 h2 h3
    have he : PDFTK.test_args_empty t = true := by
      simp [PDFTK.test_args_empty, h1, h2, h3]
    simp [PDFTK.run, CLI.run_protocol, he, PDFTK.empty_command]

/-- Witness for C7: even with a non-empty ask group and a permission
group that validation would reject, `PDFTK.run` executes the version
health check. -/
theorem claim_c7_noop_health_check_witness :
    PDFTK.run ["somefile.pdf"] pdftkOnlyOptions = .ok ["pdftk", "--version"] ∧
    PDFTK.validate_operators pdftkOnlyOptions =
      .error (.validationError "Invalid permission(s): bogus") :=
  ⟨(claim_c7_noop_health_check ["somefile.pdf"] pdftkOnlyOptions).2 rfl rfl rfl,
   rfl⟩

/-- C5: PDF input validation succeeds exactly when every input token is an
existing file or the literal "PROMPT"; on violation it raises a
ValidationError naming the offending token; and "PROMPT" passes for every
filesystem whatsoever (no existence requirement). -/
theorem claim_c5_validate_input (fs : List String) (t : PDFTK) :
    (PDFTK.validate_input fs t = .ok () ↔
      ∀ i ∈ t.input, i ∈ fs ∨ i = "PROMPT") ∧
    (∀ e, PDFTK.validate_input fs t = .error e →
      ∃ i ∈ t.input, ¬(i ∈ fs ∨ i = "PROMPT") ∧
        e = .validationError ("Invalid input value: " ++ i)) ∧
    (t.input = ["PROMPT"] → PDFTK.validate_input fs t = .ok ()) := by
  have key : ∀ x : String,
      (!(fs.contains x || x == "PROMPT")) = true ↔ ¬(x ∈ fs ∨ x = "PROMPT") := by
    intro x
    simp [List.elem_iff, not_or]
  refine ⟨?_, ?_, ?_⟩
  · unfold PDFTK.validate_input
    rcases hf : t.input.find? (fun i => !(fs.contains i || i == "PROMPT")) with _ | i
    · simp only [hf]
      simp only [true_iff]
      rw [List.find?_eq_none] at hf
      intro i hi
      have hni := hf i hi
      rw [key i] at hni
      exact not_not.mp hni
    · simp only [hf]
      constructor
      · intro hc
        exact absurd hc (by simp)
      · intro hall
        have hp := List.find?_some hf
        have hm := List.mem_of_find?_eq_some hf
        rw [key i] at hp
        exact absurd (hall i hm) hp
  · intro e he
    unfold PDFTK.validate_input at he
    rcases hf : t.input.find? (fun i => !(fs.contains i || i == "PROMPT")) with _ | i
    · rw [hf] at he
      simp at he
    · rw [hf] at he
      simp only [Except.error.injEq] at he
      have hp := List.find?_some hf
      have hm := List.mem_of_find?_eq_some hf
      rw [key i] at hp
      exact ⟨i, hm, hp, he.symm⟩
  · intro hin
    unfold PDFTK.validate_input
    rw [hin]
    have hfind : List.find? (fun i => !(fs.contains i || i == "PROMPT")) ["PROMPT"] = none := by
      rw [List.find?_eq_none]
      intro x hx
      simp at hx
      subst hx
      simp
    rw [hfind]

/-- Witness for C5: "missing.pdf" on an empty filesystem is rejected with
an error naming it, and "PROMPT" passes on a filesystem not containing a
file named PROMPT. -/
theorem claim_c5_validate_input_witness :
    (∃ i ∈ pdftkMissingInput.input, ¬(i ∈ ([] : List String) ∨ i = "PROMPT") ∧
        PyError.validationError "Invalid input value: missing.pdf" =
          PyError.validationError ("Invalid input value: " ++ i)) ∧
    PDFTK.validate_input ["other.pdf"] pdftkPromptInput = .ok () := by
  constructor
  · exact (claim_c5_validate_input [] pdftkMissingInput).2.1
      (.validationError "Invalid input value: missing.pdf") rfl
  · exact (claim_c5_validate_input ["other.pdf"] pdftkPromptInput).2.2 rfl

/-- C4: with a present output, PDF output validation raises exactly when
some output token after the leading "output" flag either fails the
`.+\.pdf|PROMPT` filename pattern or also appears among the input tokens. -/
theorem claim_c4_validate_output (t : PDFTK) (hout : t.output ≠ []) :
    ((∃ e, PDFTK.validate_output t = .error e) ↔
      ∃ i ∈ t.output.drop 1, pdftk_output_matches i = false ∨ i ∈ t.input) := by
  have key : ∀ x : String,
      (!(pdftk_output_matches x && !(t.input.contains x))) = true ↔
        (pdftk_output_matches x = false ∨ x ∈ t.input) := by
    intro x
    rcases h1 : pdftk_output_matches x <;> rcases h2 : t.input.contains x <;>
      simp [List.elem_iff] at h2 ⊢ <;> simp [h2]
  unfold PDFTK.validate_output
  rw [if_neg hout]
  rcases hf : (t.output.drop 1).find?
      (fun i => !(pdftk_output_matches i && !(t.input.contains i))) with _ | i
  · simp only [hf]
    constructor
    · rintro ⟨e, he⟩
      exact absurd he (by simp)
    · rintro ⟨i, hi, hbad⟩
      rw [List.find?_eq_none] at hf
      have := hf i hi
      rw [key i] at this
      exact absurd hbad this
  · simp only [hf]
    constructor
    · intro _
      have hp := List.find?_some hf
      have hm := List.mem_of_find?_eq_some hf
      rw [key i] at hp
      exact ⟨i, hm, hp⟩
    · intro _
      exact ⟨_, rfl⟩

/-- Witness for C4: output "report.txt" is rejected, and output
"report.pdf" is rejected when "report.pdf" is also an input token. -/
theorem claim_c4_validate_output_witness :
    (∃ e, PDFTK.validate_output pdftkTxtOutput = .error e) ∧
    (∃ e, PDFTK.validate_output pdftkClobberOutput = .error e) := by
  constructor
  · exact (claim_c4_validate_output pdftkTxtOutput (by decide)).mpr
      ⟨"report.txt", by decide, Or.inl (by decide)⟩
  · exact (claim_c4_validate_output pdftkClobberOutput (by decide)).mpr
      ⟨"report.pdf", by decide, Or.inr (by decide)⟩
